import Mathlib

set_option linter.unusedVariables false

/-
Verification of the AvPlayer guest-facing façade of shadPS4
(`src/core/libraries/avplayer/avplayer.cpp`): the priority-derivation
function, the two initialization variants, and the null-check /
delegation discipline of the non-initialization operations.

The `AvPlayer` implementation class, the public headers and
`error_codes.h` are external to the façade translation unit; they are
modelled abstractly (an opaque player state together with a record of
its methods, and the spec's fixed status vocabulary).
-/

namespace AvPlayerSpec

/-- Reduction of a natural number to the value range of a 32-bit unsigned
integer, as C++ `u32` arithmetic does on overflow. -/
def u32 (x : Nat) : Nat := x % 4294967296

/-- Reinterpretation of a `u32` bit pattern as a signed 32-bit value
(the C++ conversion applied when a `u32` expression is returned from a
function declared `s32`). -/
def u32ToS32 (x : Nat) : Int :=
  if u32 x < 2147483648 then (u32 x : Int) else (u32 x : Int) - 4294967296

/-- The C++ conversion of an unsigned integer to `bool`: any nonzero value
converts to `true`. -/
def u32ToBool (x : Nat) : Bool := u32 x != 0

/-- The C++ conversion of a signed 32-bit value to `u32`
(two's-complement wraparound). -/
def s32ToU32 (x : Int) : Nat := (x % 4294967296).toNat

/-- The `ORBIS_OK` success status. -/
def ORBIS_OK : Int := 0

/-- Modelled from the spec: `core/libraries/error_codes.h` is not part of
this excerpt. The spec fixes the status vocabulary `OK` / `INVALID_PARAMS`
where `INVALID_PARAMS` is a fixed error sentinel distinct from the zero
success status; we use the 32-bit pattern 0x806A0001 of the AvPlayer
invalid-params error code. -/
def ORBIS_AVPLAYER_ERROR_INVALID_PARAMS : Nat := 0x806A0001

/-- The invalid-params sentinel as it comes back from a façade function
declared `s32`. -/
def INVALID_PARAMS_s32 : Int := u32ToS32 ORBIS_AVPLAYER_ERROR_INVALID_PARAMS

/-- avplayer.cpp, `GetPriority`: clamp the base priority into
[637, 764] = [0x27D, 0x2FC], add the per-subsystem offset (u32 addition),
and cap the result at 767 = 0x2FF. -/
def GetPriority (base offset : Nat) : Nat :=
  min (u32 (min (max 637 base) 764 + offset)) 767

/-- Modelled from the spec: the `SceAvPlayerMemAllocator` struct of the
public header is not part of this excerpt; per the spec it carries four
mandatory memory callbacks. Function pointers are `Option Nat`, with
`none` standing for a null pointer. -/
structure SceAvPlayerMemAllocator where
  allocate : Option Nat
  deallocate : Option Nat
  allocate_texture : Option Nat
  deallocate_texture : Option Nat
  deriving DecidableEq

/-- Modelled from the spec: `SceAvPlayerInitData` (public header not part
of this excerpt) restricted to the fields the façade reads; opaque
value-struct fields are represented by `Nat`. -/
structure SceAvPlayerInitData where
  memory_replacement : SceAvPlayerMemAllocator
  file_replacement : Nat
  event_replacement : Nat
  default_language : Nat
  num_output_video_framebuffers : Nat
  auto_start : Bool
  base_priority : Nat
  deriving DecidableEq

/-- Modelled from the spec: `SceAvPlayerInitDataEx` (public header not
part of this excerpt) restricted to the fields the façade reads:
the shared config fields plus per-subsystem priority/affinity overrides. -/
structure SceAvPlayerInitDataEx where
  memory_replacement : SceAvPlayerMemAllocator
  file_replacement : Nat
  event_replacement : Nat
  default_language : Nat
  num_output_video_framebuffers : Nat
  auto_start : Bool
  video_decoder_priority : Nat
  video_decoder_affinity : Nat
  audio_decoder_priority : Nat
  audio_decoder_affinity : Nat
  controller_priority : Nat
  controller_affinity : Nat
  demuxer_priority : Nat
  demuxer_affinity : Nat
  deriving DecidableEq

/-- The `ThreadPriorities` bundle filled in by the two Init variants
(declared in `avplayer_impl.h`, not part of this excerpt; fields are the
ones assigned by `avplayer.cpp`, zero-initialized by `{}`). -/
structure ThreadPriorities where
  video_decoder_priority : Nat
  video_decoder_affinity : Nat
  audio_decoder_priority : Nat
  audio_decoder_affinity : Nat
  controller_priority : Nat
  controller_affinity : Nat
  demuxer_priority : Nat
  demuxer_affinity : Nat
  deriving DecidableEq

/-- Modelled from the spec: the `AvPlayer` implementation class
(`avplayer_impl.h` / `.cpp`) is not part of this excerpt. The PlayerHandle
is an opaque lifecycle object whose private state has abstract type `α`;
this record carries the methods `avplayer.cpp` delegates to. Opaque
caller-supplied buffers (frame info, stream info, post-init data) are
represented by `Nat`. -/
structure AvPlayerMethods (α : Type) where
  init : SceAvPlayerInitData → ThreadPriorities → α
  addSource : α → String → Int × α
  currentTime : α → Nat × α
  enableStream : α → Nat → Int × α
  getAudioData : α → Nat → Bool × Nat × α
  getStreamInfo : α → Nat → Nat → Int × Nat × α
  getVideoData : α → Nat → Bool × Nat × α
  getVideoDataEx : α → Nat → Bool × Nat × α
  isActive : α → Bool × α
  postInit : α → Nat → Int × α
  start : α → Int × α
  stop : α → Int × α
  getStreamCount : α → Int × α

/-- The heap of live player handles. `SceAvPlayerHandle` is a raw owning
pointer in the source; here it is a numeric id into this table, and a
nullable handle is `Option Nat` with `none` for a null pointer. -/
structure World (α : Type) where
  heap : List (Nat × α)
  nextId : Nat

/-- Look up a live handle by id (first matching entry). -/
def findHandle {α : Type} (heap : List (Nat × α)) (id : Nat) : Option α :=
  match heap with
  | [] => none
  | (i, a) :: rest => if i = id then some a else findHandle rest id

/-- Store an updated player state back under an existing id. -/
def writeHandle {α : Type} (heap : List (Nat × α)) (id : Nat) (a : α) :
    List (Nat × α) :=
  match heap with
  | [] => []
  | (i, b) :: rest =>
    if i = id then (i, a) :: rest else (i, b) :: writeHandle rest id a

/-- Remove a handle's entry from the heap (the model of `delete handle`). -/
def eraseHandle {α : Type} (heap : List (Nat × α)) (id : Nat) :
    List (Nat × α) :=
  match heap with
  | [] => []
  | (i, b) :: rest =>
    if i = id then eraseHandle rest id else (i, b) :: eraseHandle rest id

variable {α : Type}

/-- avplayer.cpp, `sceAvPlayerAddSource`: null handle short-circuits with
the invalid-params sentinel, otherwise delegate to `AddSource`.
Dereferencing a dangling (freed) handle is undefined behaviour in the
source; the model makes it an inert no-op returning 0. -/
def sceAvPlayerAddSource (m : AvPlayerMethods α) (w : World α)
    (handle : Option Nat) (filename : String) : Int × World α :=
  match handle with
  | none => (INVALID_PARAMS_s32, w)
  | some id =>
    match findHandle w.heap id with
    | none => (0, w)
    | some a =>
      let r := m.addSource a filename
      (r.1, ⟨writeHandle w.heap id r.2, w.nextId⟩)

/-- avplayer.cpp, `sceAvPlayerAddSourceEx`: stub; null-handle check, then
the fixed success status with no effect (`sourceDetails` is never read). -/
def sceAvPlayerAddSourceEx (w : World α) (handle : Option Nat)
    (uriType : Nat) (sourceDetails : Option Nat) : Int × World α :=
  match handle with
  | none => (INVALID_PARAMS_s32, w)
  | some _ => (ORBIS_OK, w)

/-- avplayer.cpp, `sceAvPlayerChangeStream`: stub with no parameters;
always returns the fixed success status. -/
def sceAvPlayerChangeStream (w : World α) : Int × World α :=
  (ORBIS_OK, w)

/-- avplayer.cpp, `sceAvPlayerClose`: null-handle check, then
`delete handle` unconditionally and return success. -/
def sceAvPlayerClose (w : World α) (handle : Option Nat) : Int × World α :=
  match handle with
  | none => (INVALID_PARAMS_s32, w)
  | some id => (ORBIS_OK, ⟨eraseHandle w.heap id, w.nextId⟩)

/-- avplayer.cpp, `sceAvPlayerCurrentTime`: returns `u64`; on a null
handle the u32 invalid-params sentinel is zero-extended into the `u64`
return value. -/
def sceAvPlayerCurrentTime (m : AvPlayerMethods α) (w : World α)
    (handle : Option Nat) : Nat × World α :=
  match handle with
  | none => (ORBIS_AVPLAYER_ERROR_INVALID_PARAMS, w)
  | some id =>
    match findHandle w.heap id with
    | none => (0, w)
    | some a =>
      let r := m.currentTime a
      (r.1, ⟨writeHandle w.heap id r.2, w.nextId⟩)

/-- avplayer.cpp, `sceAvPlayerDisableStream`: stub; null-handle check,
then the fixed success status with no delegation. -/
def sceAvPlayerDisableStream (w : World α) (handle : Option Nat)
    (stream_id : Nat) : Int × World α :=
  match handle with
  | none => (INVALID_PARAMS_s32, w)
  | some _ => (ORBIS_OK, w)

/-- avplayer.cpp, `sceAvPlayerEnableStream`: null-handle check, then
delegate to `EnableStream`. -/
def sceAvPlayerEnableStream (m : AvPlayerMethods α) (w : World α)
    (handle : Option Nat) (stream_id : Nat) : Int × World α :=
  match handle with
  | none => (INVALID_PARAMS_s32, w)
  | some id =>
    match findHandle w.heap id with
    | none => (0, w)
    | some a =>
      let r := m.enableStream a stream_id
      (r.1, ⟨writeHandle w.heap id r.2, w.nextId⟩)

/-- avplayer.cpp, `sceAvPlayerGetAudioData`: returns `bool`; a null handle
or null output buffer returns the invalid-params sentinel converted to
`bool`. The second component is the final content of the caller's
frame-info buffer. -/
def sceAvPlayerGetAudioData (m : AvPlayerMethods α) (w : World α)
    (handle : Option Nat) (p_info : Option Nat) :
    Bool × Option Nat × World α :=
  match handle, p_info with
  | some id, some info =>
    (match findHandle w.heap id with
    | none => (false, some info, w)
    | some a =>
      let r := m.getAudioData a info
      (r.1, some r.2.1, ⟨writeHandle w.heap id r.2.2, w.nextId⟩))
  | _, _ => (u32ToBool ORBIS_AVPLAYER_ERROR_INVALID_PARAMS, p_info, w)

/-- avplayer.cpp, `sceAvPlayerGetStreamInfo`: null handle or null output
buffer short-circuits; otherwise delegate to `GetStreamInfo`. -/
def sceAvPlayerGetStreamInfo (m : AvPlayerMethods α) (w : World α)
    (handle : Option Nat) (stream_id : Nat) (p_info : Option Nat) :
    Int × Option Nat × World α :=
  match handle, p_info with
  | some id, some info =>
    (match findHandle w.heap id with
    | none => (0, some info, w)
    | some a =>
      let r := m.getStreamInfo a stream_id info
      (r.1, some r.2.1, ⟨writeHandle w.heap id r.2.2, w.nextId⟩))
  | _, _ => (INVALID_PARAMS_s32, p_info, w)

/-- avplayer.cpp, `sceAvPlayerGetVideoData`: returns `bool`; same
null-argument discipline as `sceAvPlayerGetAudioData`. -/
def sceAvPlayerGetVideoData (m : AvPlayerMethods α) (w : World α)
    (handle : Option Nat) (video_info : Option Nat) :
    Bool × Option Nat × World α :=
  match handle, video_info with
  | some id, some info =>
    (match findHandle w.heap id with
    | none => (false, some info, w)
    | some a =>
      let r := m.getVideoData a info
      (r.1, some r.2.1, ⟨writeHandle w.heap id r.2.2, w.nextId⟩))
  | _, _ => (u32ToBool ORBIS_AVPLAYER_ERROR_INVALID_PARAMS, video_info, w)

/-- avplayer.cpp, `sceAvPlayerGetVideoDataEx`: returns `bool`; same
null-argument discipline, delegating to the extended `GetVideoData`
overload. -/
def sceAvPlayerGetVideoDataEx (m : AvPlayerMethods α) (w : World α)
    (handle : Option Nat) (video_info : Option Nat) :
    Bool × Option Nat × World α :=
  match handle, video_info with
  | some id, some info =>
    (match findHandle w.heap id with
    | none => (false, some info, w)
    | some a =>
      let r := m.getVideoDataEx a info
      (r.1, some r.2.1, ⟨writeHandle w.heap id r.2.2, w.nextId⟩))
  | _, _ => (u32ToBool ORBIS_AVPLAYER_ERROR_INVALID_PARAMS, video_info, w)

/-- avplayer.cpp, `sceAvPlayerIsActive`: returns `bool`; on a null handle
the invalid-params sentinel is converted to `bool`. -/
def sceAvPlayerIsActive (m : AvPlayerMethods α) (w : World α)
    (handle : Option Nat) : Bool × World α :=
  match handle with
  | none => (u32ToBool ORBIS_AVPLAYER_ERROR_INVALID_PARAMS, w)
  | some id =>
    match findHandle w.heap id with
    | none => (false, w)
    | some a =>
      let r := m.isActive a
      (r.1, ⟨writeHandle w.heap id r.2, w.nextId⟩)

/-- avplayer.cpp, `sceAvPlayerJumpToTime`: stub; null-handle check, then
the fixed success status with no effect. -/
def sceAvPlayerJumpToTime (w : World α) (handle : Option Nat)
    (jump_time_msec : Nat) : Int × World α :=
  match handle with
  | none => (INVALID_PARAMS_s32, w)
  | some _ => (ORBIS_OK, w)

/-- avplayer.cpp, `sceAvPlayerPause`: stub; null-handle check, then the
fixed success status with no effect. -/
def sceAvPlayerPause (w : World α) (handle : Option Nat) : Int × World α :=
  match handle with
  | none => (INVALID_PARAMS_s32, w)
  | some _ => (ORBIS_OK, w)

/-- avplayer.cpp, `sceAvPlayerPostInit`: null handle or null data pointer
short-circuits; otherwise delegate to `PostInit`. -/
def sceAvPlayerPostInit (m : AvPlayerMethods α) (w : World α)
    (handle : Option Nat) (data : Option Nat) : Int × World α :=
  match handle, data with
  | some id, some d =>
    (match findHandle w.heap id with
    | none => (0, w)
    | some a =>
      let r := m.postInit a d
      (r.1, ⟨writeHandle w.heap id r.2, w.nextId⟩))
  | _, _ => (INVALID_PARAMS_s32, w)

/-- avplayer.cpp, `sceAvPlayerPrintf`: stub with no handle parameter;
always returns the fixed success status. -/
def sceAvPlayerPrintf (w : World α) (format : Nat) : Int × World α :=
  (ORBIS_OK, w)

/-- avplayer.cpp, `sceAvPlayerResume`: stub; null-handle check, then the
fixed success status with no effect. -/
def sceAvPlayerResume (w : World α) (handle : Option Nat) : Int × World α :=
  match handle with
  | none => (INVALID_PARAMS_s32, w)
  | some _ => (ORBIS_OK, w)

/-- avplayer.cpp, `sceAvPlayerSetAvSyncMode`: stub; null-handle check,
then the fixed success status with no effect. -/
def sceAvPlayerSetAvSyncMode (w : World α) (handle : Option Nat)
    (sync_mode : Nat) : Int × World α :=
  match handle with
  | none => (INVALID_PARAMS_s32, w)
  | some _ => (ORBIS_OK, w)

/-- avplayer.cpp, `sceAvPlayerSetLogCallback`: stub with no handle
parameter; always returns the fixed success status. -/
def sceAvPlayerSetLogCallback (w : World α) (logCb : Option Nat)
    (user_data : Nat) : Int × World α :=
  (ORBIS_OK, w)

/-- avplayer.cpp, `sceAvPlayerSetLooping`: stub; null-handle check, then
the fixed success status with no effect. -/
def sceAvPlayerSetLooping (w : World α) (handle : Option Nat)
    (loop_flag : Bool) : Int × World α :=
  match handle with
  | none => (INVALID_PARAMS_s32, w)
  | some _ => (ORBIS_OK, w)

/-- avplayer.cpp, `sceAvPlayerSetTrickSpeed`: stub; null-handle check,
then the fixed success status with no effect. -/
def sceAvPlayerSetTrickSpeed (w : World α) (handle : Option Nat)
    (trick_speed : Int) : Int × World α :=
  match handle with
  | none => (INVALID_PARAMS_s32, w)
  | some _ => (ORBIS_OK, w)

/-- avplayer.cpp, `sceAvPlayerStart`: null-handle check, then delegate to
`Start`. -/
def sceAvPlayerStart (m : AvPlayerMethods α) (w : World α)
    (handle : Option Nat) : Int × World α :=
  match handle with
  | none => (INVALID_PARAMS_s32, w)
  | some id =>
    match findHandle w.heap id with
    | none => (0, w)
    | some a =>
      let r := m.start a
      (r.1, ⟨writeHandle w.heap id r.2, w.nextId⟩)

/-- avplayer.cpp, `sceAvPlayerStop`: null-handle check, then delegate to
`Stop` (despite the STUBBED log line, it forwards the call). -/
def sceAvPlayerStop (m : AvPlayerMethods α) (w : World α)
    (handle : Option Nat) : Int × World α :=
  match handle with
  | none => (INVALID_PARAMS_s32, w)
  | some id =>
    match findHandle w.heap id with
    | none => (0, w)
    | some a =>
      let r := m.stop a
      (r.1, ⟨writeHandle w.heap id r.2, w.nextId⟩)

/-- avplayer.cpp, `sceAvPlayerStreamCount`: null-handle check, then
delegate to `GetStreamCount`. -/
def sceAvPlayerStreamCount (m : AvPlayerMethods α) (w : World α)
    (handle : Option Nat) : Int × World α :=
  match handle with
  | none => (INVALID_PARAMS_s32, w)
  | some id =>
    match findHandle w.heap id with
    | none => (0, w)
    | some a =>
      let r := m.getStreamCount a
      (r.1, ⟨writeHandle w.heap id r.2, w.nextId⟩)

/-- avplayer.cpp, `sceAvPlayerVprintf`: stub with no handle parameter;
always returns the fixed success status. -/
def sceAvPlayerVprintf (w : World α) (format : Nat) (args : Nat) :
    Int × World α :=
  (ORBIS_OK, w)

/-- avplayer.cpp, the four-way null test on the memory-replacement
callbacks shared verbatim by `sceAvPlayerInit` and `sceAvPlayerInitEx`. -/
def hasNullAllocator (mr : SceAvPlayerMemAllocator) : Bool :=
  mr.allocate.isNone || mr.allocate_texture.isNone ||
    mr.deallocate.isNone || mr.deallocate_texture.isNone

/-- avplayer.cpp, `sceAvPlayerInit` lines 141-146: take the config's
base priority unless it is zero (then 700), and derive the four subsystem
priorities with the fixed offsets video 5, audio 6, demuxer 9,
controller 2; the affinity fields stay zero-initialized. -/
def simpleInitPriorities (base_priority_field : Nat) : ThreadPriorities :=
  let base_priority :=
    if base_priority_field ≠ 0 then base_priority_field else 700
  ⟨GetPriority base_priority 5, 0,
   GetPriority base_priority 6, 0,
   GetPriority base_priority 2, 0,
   GetPriority base_priority 9, 0⟩

/-- avplayer.cpp, `sceAvPlayerInit`: null config returns a null handle;
a missing memory callback returns a null handle; otherwise derive the
priorities, construct a new player and return its handle. -/
def sceAvPlayerInit (m : AvPlayerMethods α) (w : World α)
    (data : Option SceAvPlayerInitData) : Option Nat × World α :=
  match data with
  | none => (none, w)
  | some d =>
    if hasNullAllocator d.memory_replacement then (none, w)
    else
      let priorities := simpleInitPriorities d.base_priority
      let player := m.init d priorities
      (some w.nextId, ⟨(w.nextId, player) :: w.heap, w.nextId + 1⟩)

/-- avplayer.cpp, `sceAvPlayerInitEx` lines 180-184: the base priority is
the calling thread's current priority as reported by `scePthreadGetprio`
(`queryRes` its return status, `queryPrio` the value it wrote, starting
from the zero-initialized local); on a nonzero status or a zero priority
it falls back to 700. `scePthreadGetprio` / `scePthreadSelf` belong to
the kernel library outside this excerpt, so the query's outcome is a
parameter of the model. -/
def initExBasePriority (queryRes : Int) (queryPrio : Int) : Int :=
  if queryRes ≠ 0 ∨ queryPrio = 0 then 700 else queryPrio

/-- avplayer.cpp, `sceAvPlayerInitEx` lines 186-212: per subsystem, a
nonzero caller override is taken verbatim, otherwise the priority is
derived from the base with the fixed offsets video 5, audio 6,
controller 2, demuxer 9; affinities are copied verbatim. -/
def initExPriorities (d : SceAvPlayerInitDataEx) (queryRes queryPrio : Int) :
    ThreadPriorities :=
  let base_priority := s32ToU32 (initExBasePriority queryRes queryPrio)
  ⟨(if d.video_decoder_priority ≠ 0 then d.video_decoder_priority
    else GetPriority base_priority 5),
   d.video_decoder_affinity,
   (if d.audio_decoder_priority ≠ 0 then d.audio_decoder_priority
    else GetPriority base_priority 6),
   d.audio_decoder_affinity,
   (if d.controller_priority ≠ 0 then d.controller_priority
    else GetPriority base_priority 2),
   d.controller_affinity,
   (if d.demuxer_priority ≠ 0 then d.demuxer_priority
    else GetPriority base_priority 9),
   d.demuxer_affinity⟩

/-- avplayer.cpp, `sceAvPlayerInitEx` lines 171-177: the simple-init
config assembled from the extended one (`SceAvPlayerInitData data = {}`
zero-initializes the remaining fields, so `base_priority` is 0). -/
def initExData (d : SceAvPlayerInitDataEx) : SceAvPlayerInitData :=
  ⟨d.memory_replacement, d.file_replacement, d.event_replacement,
   d.default_language, d.num_output_video_framebuffers, d.auto_start, 0⟩

/-- avplayer.cpp, `sceAvPlayerInitEx`: null config or null output slot
returns the invalid-params sentinel; a missing memory callback likewise;
otherwise derive the priorities, construct a new player, write its handle
through the output slot and return success. The output slot `p_player` is
modelled by its content (`none` for a null slot pointer); the middle
result component is the slot's final content. -/
def sceAvPlayerInitEx (m : AvPlayerMethods α) (w : World α)
    (p_data : Option SceAvPlayerInitDataEx) (p_player : Option (Option Nat))
    (queryRes queryPrio : Int) : Int × Option (Option Nat) × World α :=
  match p_data, p_player with
  | some d, some slot =>
    if hasNullAllocator d.memory_replacement then
      (INVALID_PARAMS_s32, some slot, w)
    else
      let data := initExData d
      let priorities := initExPriorities d queryRes queryPrio
      let player := m.init data priorities
      (ORBIS_OK, some (some w.nextId),
       ⟨(w.nextId, player) :: w.heap, w.nextId + 1⟩)
  | _, _ => (INVALID_PARAMS_s32, p_player, w)

/-- A config fields-for-fields equal to `d` but with the given
`base_priority` (used to compare simple-init runs). -/
def setBasePriority (d : SceAvPlayerInitData) (b : Nat) :
    SceAvPlayerInitData :=
  ⟨d.memory_replacement, d.file_replacement, d.event_replacement,
   d.default_language, d.num_output_video_framebuffers, d.auto_start, b⟩

/-- A concrete trivial player implementation over the unit state, used to
evaluate the façade on closed inputs. -/
def unitMethods : AvPlayerMethods Unit :=
  ⟨fun _ _ => (), fun _ _ => (0, ()), fun _ => (0, ()),
   fun _ _ => (0, ()), fun _ _ => (false, 0, ()),
   fun _ _ _ => (0, 0, ()), fun _ _ => (false, 0, ()),
   fun _ _ => (false, 0, ()), fun _ => (false, ()),
   fun _ _ => (0, ()), fun _ => (0, ()), fun _ => (0, ()),
   fun _ => (0, ())⟩

/-- A memory-replacement record with all four callbacks present. -/
def fullAllocator : SceAvPlayerMemAllocator :=
  ⟨some 1, some 1, some 1, some 1⟩

/-- A memory-replacement record whose `allocate` callback is null. -/
def badAllocator : SceAvPlayerMemAllocator :=
  ⟨none, some 1, some 1, some 1⟩

/-- A simple-init config with all callbacks present and base priority 0. -/
def goodInitData : SceAvPlayerInitData :=
  ⟨fullAllocator, 0, 0, 0, 0, false, 0⟩

/-- A simple-init config whose `allocate` callback is null. -/
def badInitData : SceAvPlayerInitData :=
  ⟨badAllocator, 0, 0, 0, 0, false, 0⟩

/-- An extended-init config whose `allocate` callback is null. -/
def badInitDataEx : SceAvPlayerInitDataEx :=
  ⟨badAllocator, 0, 0, 0, 0, false, 0, 0, 0, 0, 0, 0, 0, 0⟩

/-- An extended-init config with nonzero video (42) and controller (900)
override priorities and zero audio/demuxer overrides. -/
def overrideInitDataEx : SceAvPlayerInitDataEx :=
  ⟨fullAllocator, 0, 0, 0, 0, false, 42, 1, 0, 2, 900, 3, 0, 4⟩

/-- An extended-init config with all four override priorities zero. -/
def allZeroInitDataEx : SceAvPlayerInitDataEx :=
  ⟨fullAllocator, 0, 0, 0, 0, false, 0, 0, 0, 0, 0, 0, 0, 0⟩

/-- An empty world over the unit player state. -/
def unitWorld : World Unit :=
  ⟨[], 0⟩

/-- A one-handle world over the `Nat` player state. -/
def natWorld : World Nat :=
  ⟨[(0, 5)], 1⟩

theorem findHandle_eraseHandle_self {α : Type} (heap : List (Nat × α))
    (id : Nat) : findHandle (eraseHandle heap id) id = none := by
  induction heap with
  | nil => rfl
  | cons p rest ih =>
    obtain ⟨i, b⟩ := p
    by_cases h : i = id
    · simpa [eraseHandle, h] using ih
    · simpa [eraseHandle, findHandle, h] using ih

theorem findHandle_eraseHandle_ne {α : Type} (heap : List (Nat × α))
    (id j : Nat) (h : j ≠ id) :
    findHandle (eraseHandle heap id) j = findHandle heap j := by
  induction heap with
  | nil => rfl
  | cons p rest ih =>
    obtain ⟨i, b⟩ := p
    by_cases hi : i = id
    · subst hi
      have hij : i ≠ j := fun hj => h hj.symm
      simpa [eraseHandle, findHandle, hij] using ih
    · by_cases hij : i = j
      · subst hij
        simp [eraseHandle, findHandle, h]
      · simpa [eraseHandle, findHandle, hi, hij] using ih

/-- C1: for every base priority in [0, 1000] and every fixed offset o in
{2, 5, 6, 9}, the priority-derivation function `GetPriority` returns
min(min(max(637, base), 764) + o, 767); in particular
GetPriority 0 5 = 642, GetPriority 700 5 = 705, GetPriority 1000 9 = 767
and GetPriority 637 2 = 639. -/
theorem claim_C1 (base o : Nat) (hb : base ≤ 1000)
    (ho : o = 2 ∨ o = 5 ∨ o = 6 ∨ o = 9) :
    GetPriority base o = min (min (max 637 base) 764 + o) 767 ∧
    GetPriority 0 5 = 642 ∧ GetPriority 700 5 = 705 ∧
    GetPriority 1000 9 = 767 ∧ GetPriority 637 2 = 639 := by
  refine ⟨?_, by decide, by decide, by decide, by decide⟩
  have ho9 : o ≤ 9 := by rcases ho with h | h | h | h <;> omega
  have hlt : min (max 637 base) 764 + o < 4294967296 := by
    have := Nat.min_le_right (max 637 base) 764
    omega
  unfold GetPriority u32
  rw [Nat.mod_eq_of_lt hlt]

/-- Witness for C1: the general formula and the concrete values,
instantiated at base 700 and offset 5. -/
theorem claim_C1_witness :
    GetPriority 700 5 = min (min (max 637 700) 764 + 5) 767 ∧
    GetPriority 0 5 = 642 ∧ GetPriority 700 5 = 705 ∧
    GetPriority 1000 9 = 767 ∧ GetPriority 637 2 = 639 :=
  claim_C1 700 5 (by decide) (Or.inr (Or.inl rfl))

/-- C2: every non-initialization façade operation, called with a null
handle (or a null required output pointer), returns the INVALID_PARAMS
sentinel (converted to the operation's return type) and performs no
delegation: the world and every caller-visible buffer are unchanged. -/
theorem claim_C2 {α : Type} (m : AvPlayerMethods α) (w : World α)
    (filename : String) (uriType sid time mode info : Nat)
    (speed : Int) (flag : Bool) (id : Nat) (buf sd : Option Nat) :
    sceAvPlayerAddSource m w none filename = (INVALID_PARAMS_s32, w) ∧
    sceAvPlayerAddSourceEx w none uriType sd = (INVALID_PARAMS_s32, w) ∧
    sceAvPlayerClose w none = (INVALID_PARAMS_s32, w) ∧
    sceAvPlayerCurrentTime m w none =
      (ORBIS_AVPLAYER_ERROR_INVALID_PARAMS, w) ∧
    sceAvPlayerDisableStream w none sid = (INVALID_PARAMS_s32, w) ∧
    sceAvPlayerEnableStream m w none sid = (INVALID_PARAMS_s32, w) ∧
    sceAvPlayerGetAudioData m w none buf =
      (u32ToBool ORBIS_AVPLAYER_ERROR_INVALID_PARAMS, buf, w) ∧
    sceAvPlayerGetAudioData m w (some id) none =
      (u32ToBool ORBIS_AVPLAYER_ERROR_INVALID_PARAMS, none, w) ∧
    sceAvPlayerGetStreamInfo m w none sid buf =
      (INVALID_PARAMS_s32, buf, w) ∧
    sceAvPlayerGetStreamInfo m w (some id) sid none =
      (INVALID_PARAMS_s32, none, w) ∧
    sceAvPlayerGetVideoData m w none buf =
      (u32ToBool ORBIS_AVPLAYER_ERROR_INVALID_PARAMS, buf, w) ∧
    sceAvPlayerGetVideoData m w (some id) none =
      (u32ToBool ORBIS_AVPLAYER_ERROR_INVALID_PARAMS, none, w) ∧
    sceAvPlayerGetVideoDataEx m w none buf =
      (u32ToBool ORBIS_AVPLAYER_ERROR_INVALID_PARAMS, buf, w) ∧
    sceAvPlayerGetVideoDataEx m w (some id) none =
      (u32ToBool ORBIS_AVPLAYER_ERROR_INVALID_PARAMS, none, w) ∧
    sceAvPlayerIsActive m w none =
      (u32ToBool ORBIS_AVPLAYER_ERROR_INVALID_PARAMS, w) ∧
    sceAvPlayerJumpToTime w none time = (INVALID_PARAMS_s32, w) ∧
    sceAvPlayerPause w none = (INVALID_PARAMS_s32, w) ∧
    sceAvPlayerPostInit m w none (some info) = (INVALID_PARAMS_s32, w) ∧
    sceAvPlayerPostInit m w (some id) none = (INVALID_PARAMS_s32, w) ∧
    sceAvPlayerResume w none = (INVALID_PARAMS_s32, w) ∧
    sceAvPlayerSetAvSyncMode w none mode = (INVALID_PARAMS_s32, w) ∧
    sceAvPlayerSetLooping w none flag = (INVALID_PARAMS_s32, w) ∧
    sceAvPlayerSetTrickSpeed w none speed = (INVALID_PARAMS_s32, w) ∧
    sceAvPlayerStart m w none = (INVALID_PARAMS_s32, w) ∧
    sceAvPlayerStop m w none = (INVALID_PARAMS_s32, w) ∧
    sceAvPlayerStreamCount m w none = (INVALID_PARAMS_s32, w) :=
  ⟨rfl, rfl, rfl, rfl, rfl, rfl, rfl, rfl, rfl, rfl, rfl, rfl, rfl,
   rfl, rfl, rfl, rfl, rfl, rfl, rfl, rfl, rfl, rfl, rfl, rfl, rfl⟩

/-- C3: both Init variants reject a config in which any one of the four
memory-replacement callbacks is null, regardless of all other config
fields: simple Init returns a null handle and extended Init returns the
INVALID_PARAMS sentinel, in both cases leaving the world (and the output
slot) unchanged. -/
theorem claim_C3 {α : Type} (m : AvPlayerMethods α) (w : World α)
    (d : SceAvPlayerInitData) (de : SceAvPlayerInitDataEx)
    (slot : Option Nat) (queryRes queryPrio : Int)
    (hd : hasNullAllocator d.memory_replacement = true)
    (hde : hasNullAllocator de.memory_replacement = true) :
    sceAvPlayerInit m w (some d) = (none, w) ∧
    sceAvPlayerInitEx m w (some de) (some slot) queryRes queryPrio =
      (INVALID_PARAMS_s32, some slot, w) := by
  constructor
  · simp [sceAvPlayerInit, hd]
  · simp [sceAvPlayerInitEx, hde]

/-- Witness for C3: a config whose `allocate` callback is null is
rejected by both Init variants. -/
theorem claim_C3_witness :
    sceAvPlayerInit unitMethods unitWorld (some badInitData) =
      (none, unitWorld) ∧
    sceAvPlayerInitEx unitMethods unitWorld (some badInitDataEx)
      (some none) 0 700 = (INVALID_PARAMS_s32, some none, unitWorld) :=
  claim_C3 unitMethods unitWorld badInitData badInitDataEx none 0 700
    rfl rfl

/-- C4: in extended Init, for each of the four subsystems a nonzero
caller-supplied override priority is stored exactly as given (the
PriorityDeriver is not applied), and a zero override makes the priority
derived via `GetPriority` with the fixed offsets video 5, audio 6,
controller 2, demuxer 9. -/
theorem claim_C4 (de : SceAvPlayerInitDataEx) (queryRes queryPrio : Int) :
    ((de.video_decoder_priority ≠ 0 →
        (initExPriorities de queryRes queryPrio).video_decoder_priority =
          de.video_decoder_priority) ∧
     (de.video_decoder_priority = 0 →
        (initExPriorities de queryRes queryPrio).video_decoder_priority =
          GetPriority (s32ToU32 (initExBasePriority queryRes queryPrio)) 5)) ∧
    ((de.audio_decoder_priority ≠ 0 →
        (initExPriorities de queryRes queryPrio).audio_decoder_priority =
          de.audio_decoder_priority) ∧
     (de.audio_decoder_priority = 0 →
        (initExPriorities de queryRes queryPrio).audio_decoder_priority =
          GetPriority (s32ToU32 (initExBasePriority queryRes queryPrio)) 6)) ∧
    ((de.controller_priority ≠ 0 →
        (initExPriorities de queryRes queryPrio).controller_priority =
          de.controller_priority) ∧
     (de.controller_priority = 0 →
        (initExPriorities de queryRes queryPrio).controller_priority =
          GetPriority (s32ToU32 (initExBasePriority queryRes queryPrio)) 2)) ∧
    ((de.demuxer_priority ≠ 0 →
        (initExPriorities de queryRes queryPrio).demuxer_priority =
          de.demuxer_priority) ∧
     (de.demuxer_priority = 0 →
        (initExPriorities de queryRes queryPrio).demuxer_priority =
          GetPriority (s32ToU32 (initExBasePriority queryRes queryPrio)) 9)) := by
  refine ⟨⟨?_, ?_⟩, ⟨?_, ?_⟩, ⟨?_, ?_⟩, ⟨?_, ?_⟩⟩ <;>
    intro h <;> simp [initExPriorities, h]

/-- Witness for C4: on a config with video override 42, controller
override 900 and zero audio/demuxer overrides (query succeeded with
priority 650), the overrides are stored verbatim and the other two
subsystems go through `GetPriority`. -/
theorem claim_C4_witness :
    (initExPriorities overrideInitDataEx 0 650).video_decoder_priority =
      overrideInitDataEx.video_decoder_priority ∧
    (initExPriorities overrideInitDataEx 0 650).audio_decoder_priority =
      GetPriority (s32ToU32 (initExBasePriority 0 650)) 6 ∧
    (initExPriorities overrideInitDataEx 0 650).controller_priority =
      overrideInitDataEx.controller_priority ∧
    (initExPriorities overrideInitDataEx 0 650).demuxer_priority =
      GetPriority (s32ToU32 (initExBasePriority 0 650)) 9 :=
  ⟨(claim_C4 overrideInitDataEx 0 650).1.1 (by decide),
   (claim_C4 overrideInitDataEx 0 650).2.1.2 (by decide),
   (claim_C4 overrideInitDataEx 0 650).2.2.1.1 (by decide),
   (claim_C4 overrideInitDataEx 0 650).2.2.2.2 (by decide)⟩

/-- C5: simple Init derives exactly the same four subsystem priorities
from a config with `base_priority` 0 as from the same config with
`base_priority` 700. -/
theorem claim_C5 (d : SceAvPlayerInitData) (h : d.base_priority = 0) :
    simpleInitPriorities d.base_priority =
      simpleInitPriorities (setBasePriority d 700).base_priority := by
  rw [h]
  show simpleInitPriorities 0 = simpleInitPriorities 700
  decide

/-- Witness for C5, at a concrete config with base priority 0. -/
theorem claim_C5_witness :
    simpleInitPriorities goodInitData.base_priority =
      simpleInitPriorities (setBasePriority goodInitData 700).base_priority :=
  claim_C5 goodInitData rfl

/-- C6: in extended Init (with no subsystem overrides, so that the
derivation is visible), the base priority for derivation is the thread
priority reported by the query; a nonzero query status or a reported
priority of zero makes the base 700, otherwise the base is the reported
priority itself. -/
theorem claim_C6 (de : SceAvPlayerInitDataEx) (queryRes queryPrio : Int)
    (hv : de.video_decoder_priority = 0)
    (ha : de.audio_decoder_priority = 0)
    (hc : de.controller_priority = 0)
    (hdm : de.demuxer_priority = 0) :
    initExPriorities de queryRes queryPrio =
      ⟨GetPriority (s32ToU32 (initExBasePriority queryRes queryPrio)) 5,
       de.video_decoder_affinity,
       GetPriority (s32ToU32 (initExBasePriority queryRes queryPrio)) 6,
       de.audio_decoder_affinity,
       GetPriority (s32ToU32 (initExBasePriority queryRes queryPrio)) 2,
       de.controller_affinity,
       GetPriority (s32ToU32 (initExBasePriority queryRes queryPrio)) 9,
       de.demuxer_affinity⟩ ∧
    ((queryRes ≠ 0 ∨ queryPrio = 0) →
      initExBasePriority queryRes queryPrio = 700) ∧
    (queryRes = 0 → queryPrio ≠ 0 →
      initExBasePriority queryRes queryPrio = queryPrio) := by
  refine ⟨?_, ?_, ?_⟩
  · simp [initExPriorities, hv, ha, hc, hdm]
  · intro h
    rw [initExBasePriority, if_pos h]
  · intro h1 h2
    rw [initExBasePriority, if_neg]
    simp [h1, h2]

/-- Witness for C6, at a config with all overrides zero, a successful
query reporting priority 650, confirming both fallback equations. -/
theorem claim_C6_witness :
    initExPriorities allZeroInitDataEx 0 650 =
      ⟨GetPriority (s32ToU32 (initExBasePriority 0 650)) 5,
       allZeroInitDataEx.video_decoder_affinity,
       GetPriority (s32ToU32 (initExBasePriority 0 650)) 6,
       allZeroInitDataEx.audio_decoder_affinity,
       GetPriority (s32ToU32 (initExBasePriority 0 650)) 2,
       allZeroInitDataEx.controller_affinity,
       GetPriority (s32ToU32 (initExBasePriority 0 650)) 9,
       allZeroInitDataEx.demuxer_affinity⟩ ∧
    (((0 : Int) ≠ 0 ∨ (650 : Int) = 0) → initExBasePriority 0 650 = 700) ∧
    ((0 : Int) = 0 → (650 : Int) ≠ 0 → initExBasePriority 0 650 = 650) :=
  claim_C6 allZeroInitDataEx 0 650 rfl rfl rfl rfl

/-- C7: every stub operation (AddSourceEx, ChangeStream, JumpToTime,
Pause, Resume, SetAvSyncMode, SetLogCallback, SetLooping, SetTrickSpeed,
Printf, Vprintf) returns the fixed success status on a non-null handle,
returns the INVALID_PARAMS sentinel on a null handle where a handle
parameter exists, and leaves the world unchanged in every case. -/
theorem claim_C7 {α : Type} (w : World α) (id : Nat)
    (uriType time mode fmt user args : Nat) (speed : Int) (flag : Bool)
    (sd cb : Option Nat) :
    sceAvPlayerAddSourceEx w (some id) uriType sd = (ORBIS_OK, w) ∧
    sceAvPlayerAddSourceEx w none uriType sd = (INVALID_PARAMS_s32, w) ∧
    sceAvPlayerChangeStream w = (ORBIS_OK, w) ∧
    sceAvPlayerJumpToTime w (some id) time = (ORBIS_OK, w) ∧
    sceAvPlayerJumpToTime w none time = (INVALID_PARAMS_s32, w) ∧
    sceAvPlayerPause w (some id) = (ORBIS_OK, w) ∧
    sceAvPlayerPause w none = (INVALID_PARAMS_s32, w) ∧
    sceAvPlayerResume w (some id) = (ORBIS_OK, w) ∧
    sceAvPlayerResume w none = (INVALID_PARAMS_s32, w) ∧
    sceAvPlayerSetAvSyncMode w (some id) mode = (ORBIS_OK, w) ∧
    sceAvPlayerSetAvSyncMode w none mode = (INVALID_PARAMS_s32, w) ∧
    sceAvPlayerSetLogCallback w cb user = (ORBIS_OK, w) ∧
    sceAvPlayerSetLooping w (some id) flag = (ORBIS_OK, w) ∧
    sceAvPlayerSetLooping w none flag = (INVALID_PARAMS_s32, w) ∧
    sceAvPlayerSetTrickSpeed w (some id) speed = (ORBIS_OK, w) ∧
    sceAvPlayerSetTrickSpeed w none speed = (INVALID_PARAMS_s32, w) ∧
    sceAvPlayerPrintf w fmt = (ORBIS_OK, w) ∧
    sceAvPlayerVprintf w fmt args = (ORBIS_OK, w) :=
  ⟨rfl, rfl, rfl, rfl, rfl, rfl, rfl, rfl, rfl, rfl, rfl, rfl, rfl,
   rfl, rfl, rfl, rfl, rfl⟩

/-- C8: Close on a valid (live, non-null) handle returns the success
status and frees exactly that handle: after the call the handle is no
longer in the heap, every other handle is untouched, and this holds for
every player state the handle may be in (the destruction is unconditional
after the null check). -/
theorem claim_C8 {α : Type} (w : World α) (id : Nat) (a : α)
    (hlive : findHandle w.heap id = some a) :
    (sceAvPlayerClose w (some id)).1 = ORBIS_OK ∧
    findHandle (sceAvPlayerClose w (some id)).2.heap id = none ∧
    (∀ j, j ≠ id →
      findHandle (sceAvPlayerClose w (some id)).2.heap j =
        findHandle w.heap j) := by
  refine ⟨rfl, ?_, ?_⟩
  · exact findHandle_eraseHandle_self w.heap id
  · intro j hj
    exact findHandle_eraseHandle_ne w.heap id j hj

/-- Witness for C8, on a world with live handle 0 in state 5: Close frees
handle 0 and leaves the (absent) handle 1 alone. -/
theorem claim_C8_witness :
    (sceAvPlayerClose natWorld (some 0)).1 = ORBIS_OK ∧
    findHandle (sceAvPlayerClose natWorld (some 0)).2.heap 0 = none ∧
    findHandle (sceAvPlayerClose natWorld (some 0)).2.heap 1 =
      findHandle natWorld.heap 1 :=
  ⟨(claim_C8 natWorld 0 5 rfl).1, (claim_C8 natWorld 0 5 rfl).2.1,
   (claim_C8 natWorld 0 5 rfl).2.2 1 (by decide)⟩

/-- C9: for the boolean-returning operations GetAudioData, GetVideoData,
GetVideoDataEx and IsActive, a null handle or null output pointer makes
the nonzero INVALID_PARAMS sentinel coerce to the boolean `true`, not
`false`, so the argument-validation failure is indistinguishable from a
successful boolean result. -/
theorem claim_C9 {α : Type} (m : AvPlayerMethods α) (w : World α)
    (id : Nat) (buf : Option Nat) :
    (sceAvPlayerGetAudioData m w none buf).1 = true ∧
    (sceAvPlayerGetAudioData m w (some id) none).1 = true ∧
    (sceAvPlayerGetVideoData m w none buf).1 = true ∧
    (sceAvPlayerGetVideoData m w (some id) none).1 = true ∧
    (sceAvPlayerGetVideoDataEx m w none buf).1 = true ∧
    (sceAvPlayerGetVideoDataEx m w (some id) none).1 = true ∧
    (sceAvPlayerIsActive m w none).1 = true :=
  ⟨rfl, rfl, rfl, rfl, rfl, rfl, rfl⟩

/-- C10: simple Init with a null config pointer returns a null handle and
constructs no player state (the world is unchanged); extended Init with a
null config pointer or a null output slot returns the INVALID_PARAMS
sentinel without writing through the output slot and without constructing
any player state. -/
theorem claim_C10 {α : Type} (m : AvPlayerMethods α) (w : World α)
    (de : SceAvPlayerInitDataEx) (pp : Option (Option Nat))
    (queryRes queryPrio : Int) :
    sceAvPlayerInit m w none = (none, w) ∧
    sceAvPlayerInitEx m w none pp queryRes queryPrio =
      (INVALID_PARAMS_s32, pp, w) ∧
    sceAvPlayerInitEx m w (some de) none queryRes queryPrio =
      (INVALID_PARAMS_s32, none, w) :=
  ⟨rfl, rfl, rfl⟩

end AvPlayerSpec
